import Mathlib

/-
Verification of the data-transformation pipeline of the Illinois income
inequality dashboard (src/app.py) against its specification.

The CSV table is embedded as a list of rows; every numeric column is a
rational number (pandas float arithmetic, modelled exactly), the state and
label columns are strings.  Each derivation of app.py `main` is translated
as a pure function on `List Row`, keeping the source column and variable
names where Lean allows it.  Division follows the Lean convention q / 0 = 0;
where a pandas expression would produce NaN or raise, the embedding makes
this explicit (Option results model raising index errors).
-/

/-- One CSV row of the dataset read by `load_data` (src/app.py line 14).
Bracket rows have `agi_stub` in 1..10; aggregate/percentile rows have
`agi_stub = 0` and carry the `total_*` / `sum_*` percentile columns. -/
structure Row where
  state : String
  year : Int
  agi_stub : Int
  agi_stub_cat : String
  returns : ℚ
  inc : ℚ
  agi : ℚ
  wages : ℚ
  interest : ℚ
  dividends : ℚ
  business : ℚ
  capital_gains : ℚ
  s_corp : ℚ
  agi_01 : ℚ
  agi_05 : ℚ
  agi_10 : ℚ
  agi_50 : ℚ
  total_agi : ℚ
  sum_agi_01 : ℚ
  sum_agi_05 : ℚ
  sum_agi_10 : ℚ
  sum_agi_50 : ℚ
  total_sal_amt : ℚ
  sum_sal_01 : ℚ
  sum_sal_05 : ℚ
  sum_sal_10 : ℚ
  sum_sal_50 : ℚ
  total_int_amt : ℚ
  sum_int_01 : ℚ
  sum_int_05 : ℚ
  sum_int_10 : ℚ
  sum_int_50 : ℚ
  total_div_amt : ℚ
  sum_div_01 : ℚ
  sum_div_05 : ℚ
  sum_div_10 : ℚ
  sum_div_50 : ℚ
  total_businc_amt : ℚ
  sum_businc_01 : ℚ
  sum_businc_05 : ℚ
  sum_businc_10 : ℚ
  sum_businc_50 : ℚ
  total_cpgain_amt : ℚ
  sum_cpgain_01 : ℚ
  sum_cpgain_05 : ℚ
  sum_cpgain_10 : ℚ
  sum_cpgain_50 : ℚ
  total_scorp_amt : ℚ
  sum_scorp_01 : ℚ
  sum_scorp_05 : ℚ
  sum_scorp_10 : ℚ
  sum_scorp_50 : ℚ
  deriving DecidableEq

/-- A base row with every numeric column zero, used to build concrete test
rows by structure update. -/
def row0 : Row :=
  { state := "", year := 0, agi_stub := 0, agi_stub_cat := "",
    returns := 0, inc := 0, agi := 0,
    wages := 0, interest := 0, dividends := 0, business := 0,
    capital_gains := 0, s_corp := 0,
    agi_01 := 0, agi_05 := 0, agi_10 := 0, agi_50 := 0,
    total_agi := 0, sum_agi_01 := 0, sum_agi_05 := 0, sum_agi_10 := 0, sum_agi_50 := 0,
    total_sal_amt := 0, sum_sal_01 := 0, sum_sal_05 := 0, sum_sal_10 := 0, sum_sal_50 := 0,
    total_int_amt := 0, sum_int_01 := 0, sum_int_05 := 0, sum_int_10 := 0, sum_int_50 := 0,
    total_div_amt := 0, sum_div_01 := 0, sum_div_05 := 0, sum_div_10 := 0, sum_div_50 := 0,
    total_businc_amt := 0, sum_businc_01 := 0, sum_businc_05 := 0, sum_businc_10 := 0,
    sum_businc_50 := 0,
    total_cpgain_amt := 0, sum_cpgain_01 := 0, sum_cpgain_05 := 0, sum_cpgain_10 := 0,
    sum_cpgain_50 := 0,
    total_scorp_amt := 0, sum_scorp_01 := 0, sum_scorp_05 := 0, sum_scorp_10 := 0,
    sum_scorp_50 := 0 }

/-- A row of `pctile_dist` after app.py lines 195-206 added the derived
columns: the seven `bottom_50*` subtraction columns and the four share
columns (source columns `Top 1%`, `Top 5%`, `Top 10%`, `Bottom 50%`).
`base` carries the original columns, which pandas keeps on the frame. -/
structure PctileRow where
  base : Row
  bottom_50 : ℚ
  bottom_50_sal : ℚ
  bottom_50_int : ℚ
  bottom_50_div : ℚ
  bottom_50_businc : ℚ
  bottom_50_cpgain : ℚ
  bottom_50_scorp : ℚ
  top1Share : ℚ
  top5Share : ℚ
  top10Share : ℚ
  bottom50Share : ℚ
  deriving DecidableEq

/-- The derived-column computation of app.py lines 195-206, applied to one
aggregate row: each `bottom_50*` column subtracts the corresponding
`sum_*_50` column from the `total_*` column, and the four share columns
divide by `total_agi`. -/
def deriveRow (r : Row) : PctileRow :=
  { base := r
    bottom_50 := r.total_agi - r.sum_agi_50
    bottom_50_sal := r.total_sal_amt - r.sum_sal_50
    bottom_50_int := r.total_int_amt - r.sum_int_50
    bottom_50_div := r.total_div_amt - r.sum_div_50
    bottom_50_businc := r.total_businc_amt - r.sum_businc_50
    bottom_50_cpgain := r.total_cpgain_amt - r.sum_cpgain_50
    bottom_50_scorp := r.total_scorp_amt - r.sum_scorp_50
    top1Share := r.sum_agi_01 / r.total_agi
    top5Share := r.sum_agi_05 / r.total_agi
    top10Share := r.sum_agi_10 / r.total_agi
    bottom50Share := (r.total_agi - r.sum_agi_50) / r.total_agi }

/-- The `pctile_dist` frame of app.py lines 193-206: keep aggregate rows
(`agi_stub == 0`), keep state IL, then add the derived columns. -/
def pctile_dist (df : List Row) : List PctileRow :=
  ((df.filter fun r => r.agi_stub == 0).filter fun r => r.state == "IL").map deriveRow

/-- Follows the wording of the specification data model (section 3), not the
source: percentile cumulative sums are monotonically nested, top-1 sum less
or equal top-5 sum less or equal top-10 sum less or equal total, for AGI and
for each income-source measure.  Note the specification states no bound
relating the `sum_*_50` columns to the totals. -/
def specNesting (r : Row) : Prop :=
  (r.sum_agi_01 ≤ r.sum_agi_05 ∧ r.sum_agi_05 ≤ r.sum_agi_10 ∧ r.sum_agi_10 ≤ r.total_agi) ∧
  (r.sum_sal_01 ≤ r.sum_sal_05 ∧ r.sum_sal_05 ≤ r.sum_sal_10 ∧ r.sum_sal_10 ≤ r.total_sal_amt) ∧
  (r.sum_int_01 ≤ r.sum_int_05 ∧ r.sum_int_05 ≤ r.sum_int_10 ∧ r.sum_int_10 ≤ r.total_int_amt) ∧
  (r.sum_div_01 ≤ r.sum_div_05 ∧ r.sum_div_05 ≤ r.sum_div_10 ∧ r.sum_div_10 ≤ r.total_div_amt) ∧
  (r.sum_businc_01 ≤ r.sum_businc_05 ∧ r.sum_businc_05 ≤ r.sum_businc_10 ∧
    r.sum_businc_10 ≤ r.total_businc_amt) ∧
  (r.sum_cpgain_01 ≤ r.sum_cpgain_05 ∧ r.sum_cpgain_05 ≤ r.sum_cpgain_10 ∧
    r.sum_cpgain_10 ≤ r.total_cpgain_amt) ∧
  (r.sum_scorp_01 ≤ r.sum_scorp_05 ∧ r.sum_scorp_05 ≤ r.sum_scorp_10 ∧
    r.sum_scorp_10 ≤ r.total_scorp_amt)

instance (r : Row) : Decidable (specNesting r) := by
  unfold specNesting; infer_instance

/-- A well-behaved aggregate row: totals dominate every cumulative sum. -/
def exRowA : Row :=
  { row0 with
    state := "IL", year := 2022, agi_stub := 0,
    total_agi := 100, sum_agi_01 := 10, sum_agi_05 := 20, sum_agi_10 := 40, sum_agi_50 := 80,
    total_sal_amt := 60, sum_sal_50 := 30 }

/-- An aggregate row whose top-50 cumulative sum and top-10 cumulative sum
differ, separating the two candidate subtraction formulas. -/
def exRowB : Row :=
  { row0 with
    state := "IL", year := 2022, agi_stub := 0,
    total_agi := 100, sum_agi_01 := 10, sum_agi_05 := 20, sum_agi_10 := 47, sum_agi_50 := 80 }

/-- An aggregate row satisfying the nesting invariant as the specification
states it (which bounds only the top-1/5/10 sums by the total) while its
`sum_agi_50` exceeds `total_agi`. -/
def exRowC : Row :=
  { row0 with
    state := "IL", year := 2022, agi_stub := 0,
    total_agi := 100, sum_agi_01 := 10, sum_agi_05 := 20, sum_agi_10 := 40, sum_agi_50 := 150 }

/-- C1 counterexample: on an aggregate row with `total_agi = 100`,
`sum_agi_10 = 47`, `sum_agi_50 = 80`, the code (app.py line 195) computes
`bottom_50 = 20 = total_agi - sum_agi_50`, which differs from
`total_agi - sum_agi_10 = 53`; so `bottom_50` is not the total minus the
top-10 percent cumulative amount. -/
theorem C1_counterexample :
    (deriveRow exRowB).bottom_50 = 20 ∧
    exRowB.total_agi - exRowB.sum_agi_10 = 53 ∧
    (deriveRow exRowB).bottom_50 ≠ exRowB.total_agi - exRowB.sum_agi_10 := by
  norm_num [deriveRow, exRowB, row0]

/-- C1 amended: in the percentile derivation, every derived
`bottom_50*` column equals the dataset total amount minus the top-50
percent cumulative amount (the `sum_*_50` column), for total AGI and for
each income-source amount (app.py lines 195-201). -/
theorem C1_amended (df : List Row) (p : PctileRow) (hp : p ∈ pctile_dist df) :
    p.bottom_50 = p.base.total_agi - p.base.sum_agi_50 ∧
    p.bottom_50_sal = p.base.total_sal_amt - p.base.sum_sal_50 ∧
    p.bottom_50_int = p.base.total_int_amt - p.base.sum_int_50 ∧
    p.bottom_50_div = p.base.total_div_amt - p.base.sum_div_50 ∧
    p.bottom_50_businc = p.base.total_businc_amt - p.base.sum_businc_50 ∧
    p.bottom_50_cpgain = p.base.total_cpgain_amt - p.base.sum_cpgain_50 ∧
    p.bottom_50_scorp = p.base.total_scorp_amt - p.base.sum_scorp_50 := by
  simp only [pctile_dist, List.mem_map] at hp
  obtain ⟨r, hr, rfl⟩ := hp
  simp [deriveRow]

/-- C1 amended witness: the amended statement evaluated on a concrete
one-row table. -/
theorem C1_amended_witness :
    (deriveRow exRowA).bottom_50 =
      (deriveRow exRowA).base.total_agi - (deriveRow exRowA).base.sum_agi_50 :=
  (C1_amended [exRowA] (deriveRow exRowA)
    (by exact List.mem_singleton_self _)).1

/-- C2 confirmed: the bottom-50-by-subtraction computation subtracts the
top-50 percent cumulative column (`sum_agi_50` and the analogous `sum_*_50`
column per source) from the total, and whenever the top-50 and top-10
cumulative columns differ the result is not `total - sum_*_10` (app.py
lines 195-201). -/
theorem C2_confirmed (df : List Row) (p : PctileRow) (hp : p ∈ pctile_dist df) :
    (p.bottom_50 = p.base.total_agi - p.base.sum_agi_50 ∧
      (p.base.sum_agi_50 ≠ p.base.sum_agi_10 →
        p.bottom_50 ≠ p.base.total_agi - p.base.sum_agi_10)) ∧
    (p.bottom_50_sal = p.base.total_sal_amt - p.base.sum_sal_50 ∧
      (p.base.sum_sal_50 ≠ p.base.sum_sal_10 →
        p.bottom_50_sal ≠ p.base.total_sal_amt - p.base.sum_sal_10)) ∧
    (p.bottom_50_int = p.base.total_int_amt - p.base.sum_int_50 ∧
      (p.base.sum_int_50 ≠ p.base.sum_int_10 →
        p.bottom_50_int ≠ p.base.total_int_amt - p.base.sum_int_10)) ∧
    (p.bottom_50_div = p.base.total_div_amt - p.base.sum_div_50 ∧
      (p.base.sum_div_50 ≠ p.base.sum_div_10 →
        p.bottom_50_div ≠ p.base.total_div_amt - p.base.sum_div_10)) ∧
    (p.bottom_50_businc = p.base.total_businc_amt - p.base.sum_businc_50 ∧
      (p.base.sum_businc_50 ≠ p.base.sum_businc_10 →
        p.bottom_50_businc ≠ p.base.total_businc_amt - p.base.sum_businc_10)) ∧
    (p.bottom_50_cpgain = p.base.total_cpgain_amt - p.base.sum_cpgain_50 ∧
      (p.base.sum_cpgain_50 ≠ p.base.sum_cpgain_10 →
        p.bottom_50_cpgain ≠ p.base.total_cpgain_amt - p.base.sum_cpgain_10)) ∧
    (p.bottom_50_scorp = p.base.total_scorp_amt - p.base.sum_scorp_50 ∧
      (p.base.sum_scorp_50 ≠ p.base.sum_scorp_10 →
        p.bottom_50_scorp ≠ p.base.total_scorp_amt - p.base.sum_scorp_10)) := by
  simp only [pctile_dist, List.mem_map] at hp
  obtain ⟨r, hr, rfl⟩ := hp
  exact ⟨⟨rfl, fun h hEq => h (sub_right_inj.mp hEq)⟩,
    ⟨rfl, fun h hEq => h (sub_right_inj.mp hEq)⟩,
    ⟨rfl, fun h hEq => h (sub_right_inj.mp hEq)⟩,
    ⟨rfl, fun h hEq => h (sub_right_inj.mp hEq)⟩,
    ⟨rfl, fun h hEq => h (sub_right_inj.mp hEq)⟩,
    ⟨rfl, fun h hEq => h (sub_right_inj.mp hEq)⟩,
    ⟨rfl, fun h hEq => h (sub_right_inj.mp hEq)⟩⟩

/-- C2 witness: on a concrete row with differing top-50 and top-10
cumulative sums, the computed bottom-50 value is not the total minus the
top-10 cumulative sum. -/
theorem C2_confirmed_witness :
    (deriveRow exRowB).bottom_50 ≠
      (deriveRow exRowB).base.total_agi - (deriveRow exRowB).base.sum_agi_10 :=
  ((C2_confirmed [exRowB] (deriveRow exRowB)
    (by exact List.mem_singleton_self _)).1.2
    (by norm_num [deriveRow, exRowB, row0]))

/-- C8 confirmed: for every row of the Figure-3 percentile output, under the
nesting invariant for the AGI cumulative sums and a positive total, the
derived ratios satisfy Top 1 share less or equal Top 5 share less or equal
Top 10 share less or equal 1 (app.py lines 203-206). -/
theorem C8_confirmed (df : List Row) (p : PctileRow) (hp : p ∈ pctile_dist df)
    (h1 : p.base.sum_agi_01 ≤ p.base.sum_agi_05)
    (h2 : p.base.sum_agi_05 ≤ p.base.sum_agi_10)
    (h3 : p.base.sum_agi_10 ≤ p.base.total_agi)
    (h0 : 0 < p.base.total_agi) :
    p.top1Share ≤ p.top5Share ∧ p.top5Share ≤ p.top10Share ∧ p.top10Share ≤ 1 := by
  simp only [pctile_dist, List.mem_map] at hp
  obtain ⟨r, hr, rfl⟩ := hp
  simp only [deriveRow] at h1 h2 h3 h0 ⊢
  exact ⟨(div_le_div_iff_of_pos_right h0).mpr h1, (div_le_div_iff_of_pos_right h0).mpr h2,
    (div_le_one h0).mpr h3⟩

/-- C8 witness: the nesting conclusion evaluated on a concrete aggregate row
with sums 10, 20, 40 and total 100. -/
theorem C8_confirmed_witness :
    (deriveRow exRowA).top1Share ≤ (deriveRow exRowA).top5Share ∧
    (deriveRow exRowA).top5Share ≤ (deriveRow exRowA).top10Share ∧
    (deriveRow exRowA).top10Share ≤ 1 :=
  C8_confirmed [exRowA] (deriveRow exRowA)
    (by exact List.mem_singleton_self _)
    (by norm_num [deriveRow, exRowA, row0])
    (by norm_num [deriveRow, exRowA, row0])
    (by norm_num [deriveRow, exRowA, row0])
    (by norm_num [deriveRow, exRowA, row0])

/-- C9 counterexample: a row satisfying the nesting invariant exactly as the
specification data model states it (top-1/5/10 sums bounded by the total; it
states no bound on `sum_agi_50`) on which the computed `bottom_50` is
negative, and the negative value flows unflagged into the `Bottom 50%` share
column of the output. -/
theorem C9_counterexample :
    specNesting exRowC ∧
    (deriveRow exRowC).bottom_50 < 0 ∧
    (deriveRow exRowC).bottom50Share < 0 := by
  norm_num [specNesting, deriveRow, exRowC, row0]

/-- C9 amended: a `bottom_50*` column is nonnegative exactly when the
corresponding top-50 percent cumulative sum is at most the corresponding
total; when the total is exceeded the program neither flags nor clamps: the
derived column is negative and is carried into the output unchanged (app.py
lines 195-201). -/
theorem C9_amended (r : Row) :
    (r.sum_agi_50 ≤ r.total_agi → 0 ≤ (deriveRow r).bottom_50) ∧
    (r.total_agi < r.sum_agi_50 → (deriveRow r).bottom_50 < 0) ∧
    (r.sum_sal_50 ≤ r.total_sal_amt → 0 ≤ (deriveRow r).bottom_50_sal) ∧
    (r.total_sal_amt < r.sum_sal_50 → (deriveRow r).bottom_50_sal < 0) ∧
    (r.sum_int_50 ≤ r.total_int_amt → 0 ≤ (deriveRow r).bottom_50_int) ∧
    (r.total_int_amt < r.sum_int_50 → (deriveRow r).bottom_50_int < 0) ∧
    (r.sum_div_50 ≤ r.total_div_amt → 0 ≤ (deriveRow r).bottom_50_div) ∧
    (r.total_div_amt < r.sum_div_50 → (deriveRow r).bottom_50_div < 0) ∧
    (r.sum_businc_50 ≤ r.total_businc_amt → 0 ≤ (deriveRow r).bottom_50_businc) ∧
    (r.total_businc_amt < r.sum_businc_50 → (deriveRow r).bottom_50_businc < 0) ∧
    (r.sum_cpgain_50 ≤ r.total_cpgain_amt → 0 ≤ (deriveRow r).bottom_50_cpgain) ∧
    (r.total_cpgain_amt < r.sum_cpgain_50 → (deriveRow r).bottom_50_cpgain < 0) ∧
    (r.sum_scorp_50 ≤ r.total_scorp_amt → 0 ≤ (deriveRow r).bottom_50_scorp) ∧
    (r.total_scorp_amt < r.sum_scorp_50 → (deriveRow r).bottom_50_scorp < 0) := by
  simp only [deriveRow]
  exact ⟨fun h => sub_nonneg.mpr h, fun h => sub_neg.mpr h,
    fun h => sub_nonneg.mpr h, fun h => sub_neg.mpr h,
    fun h => sub_nonneg.mpr h, fun h => sub_neg.mpr h,
    fun h => sub_nonneg.mpr h, fun h => sub_neg.mpr h,
    fun h => sub_nonneg.mpr h, fun h => sub_neg.mpr h,
    fun h => sub_nonneg.mpr h, fun h => sub_neg.mpr h,
    fun h => sub_nonneg.mpr h, fun h => sub_neg.mpr h⟩

/-- C9 amended witness: nonnegative on a row whose top-50 sum is within the
total, negative (propagated, not clamped) on a row whose top-50 sum exceeds
the total. -/
theorem C9_amended_witness :
    0 ≤ (deriveRow exRowA).bottom_50 ∧ (deriveRow exRowC).bottom_50 < 0 :=
  ⟨(C9_amended exRowA).1 (by norm_num [exRowA, row0]),
    (C9_amended exRowC).2.1 (by norm_num [exRowC, row0])⟩

/-- The Figure-1 slice of app.py lines 95-96: drop the aggregate row
(`agi_stub != 0`), then keep one (year, state). -/
def fig1Slice (df : List Row) (y : Int) (s : String) : List Row :=
  (df.filter fun r => r.agi_stub != 0).filter fun r => r.year == y && r.state == s

/-- A row of the Figure-1 frame after app.py lines 97-99: the kept columns
plus the two share columns (source columns `Tax returns` and `Income`). -/
structure Fig1Row where
  state : String
  agi_stub_cat : String
  agi_stub : Int
  returns : ℚ
  inc : ℚ
  taxReturnsShare : ℚ
  incomeShare : ℚ
  deriving DecidableEq

/-- The share computation of app.py lines 98-99 for one row of the slice:
`returns` and `inc` divided by the respective column sums over the slice. -/
def fig1Share (rows : List Row) (r : Row) : Fig1Row :=
  { state := r.state, agi_stub_cat := r.agi_stub_cat, agi_stub := r.agi_stub,
    returns := r.returns, inc := r.inc,
    taxReturnsShare := r.returns / (rows.map Row.returns).sum,
    incomeShare := r.inc / (rows.map Row.inc).sum }

/-- The wide Figure-1 frame of app.py lines 95-99. -/
def fig1Wide (df : List Row) (y : Int) (s : String) : List Fig1Row :=
  (fig1Slice df y s).map (fig1Share (fig1Slice df y s))

/-- A row of the melted (long-form) Figure-1 frame of app.py lines 105-109:
`Legend` is the metric name, `Percentage` its value. -/
structure MeltRow where
  agi_stub_cat : String
  agi_stub : Int
  legend : String
  percentage : ℚ
  deriving DecidableEq

/-- Melt helper: the `Tax returns` metric rows of app.py line 107. -/
def meltTax (f : Fig1Row) : MeltRow :=
  { agi_stub_cat := f.agi_stub_cat, agi_stub := f.agi_stub,
    legend := "Tax returns", percentage := f.taxReturnsShare }

/-- Melt helper: the `Income` metric rows of app.py line 107. -/
def meltInc (f : Fig1Row) : MeltRow :=
  { agi_stub_cat := f.agi_stub_cat, agi_stub := f.agi_stub,
    legend := "Income", percentage := f.incomeShare }

/-- The sort key of app.py line 102. -/
def stubLe (a b : Fig1Row) : Bool := decide (a.agi_stub ≤ b.agi_stub)

/-- The sorted and melted Figure-1 frame of app.py lines 102-109: pandas
melt with value_vars `Tax returns` then `Income` stacks all rows of the
first metric before all rows of the second. -/
def fig1Melt (df : List Row) (y : Int) (s : String) : List MeltRow :=
  ((fig1Wide df y s).mergeSort stubLe).map meltTax ++
    ((fig1Wide df y s).mergeSort stubLe).map meltInc

/-- Summing f x / c over a list equals the sum of f divided by c. -/
theorem sum_map_div {α : Type} (l : List α) (f : α → ℚ) (c : ℚ) :
    (l.map fun x => f x / c).sum = (l.map f).sum / c := by
  induction l with
  | nil => simp
  | cons x xs ih => simp [ih, add_div]

/-- Filtering a mapped list by a predicate true on every image keeps it. -/
theorem filter_map_of_true {α β : Type} (l : List α) (f : α → β) (p : β → Bool)
    (h : ∀ x, p (f x) = true) : (l.map f).filter p = l.map f := by
  induction l with
  | nil => rfl
  | cons x xs ih => simp [h, ih]

/-- Filtering a mapped list by a predicate false on every image empties it. -/
theorem filter_map_of_false {α β : Type} (l : List α) (f : α → β) (p : β → Bool)
    (h : ∀ x, p (f x) = false) : (l.map f).filter p = [] := by
  induction l with
  | nil => rfl
  | cons x xs ih => simp [h, ih]

/-- A bracket row for (2022, IL) whose `returns` and `inc` are both zero. -/
def exRowZ : Row :=
  { row0 with state := "IL", year := 2022, agi_stub := 1 }

/-- A one-row table whose (2022, IL) slice has zero column sums. -/
def exDfZ : List Row := [exRowZ]

/-- C4 counterexample: a table whose (2022, IL) slice is a single bracket
row with `returns = 0` and `inc = 0`.  The slice is nonempty, yet the share
columns of the Figure-1 output do not sum to 1: pandas divides by a zero
column sum (NaN), modelled as q / 0 = 0, and in both semantics the sum
differs from 1. -/
theorem C4_counterexample :
    fig1Slice exDfZ 2022 "IL" ≠ [] ∧
    (((fig1Melt exDfZ 2022 "IL").filter fun m => m.legend == "Tax returns").map
      MeltRow.percentage).sum ≠ 1 := by
  have hb : (("Income" : String) == "Tax returns") = false := rfl
  have ht : (("Tax returns" : String) == "Tax returns") = true := rfl
  constructor
  · simp [fig1Slice, exDfZ, exRowZ, row0]
  · norm_num [fig1Melt, fig1Wide, fig1Slice, fig1Share, meltTax, meltInc,
      exDfZ, exRowZ, row0, List.mergeSort, hb, ht]

/-- C4 amended: for every (year, state) slice, provided the column sums of
`returns` and of `inc` over the slice are nonzero, the Figure-1 derivation
computes shares `returns / sum` and `inc / sum` and each share column of the
melted output sums to exactly 1 (app.py lines 95-109; exact in rational
arithmetic, within floating-point tolerance in the implementation). -/
theorem C4_amended (df : List Row) (y : Int) (s : String)
    (hr : ((fig1Slice df y s).map Row.returns).sum ≠ 0)
    (hi : ((fig1Slice df y s).map Row.inc).sum ≠ 0) :
    (((fig1Melt df y s).filter fun m => m.legend == "Tax returns").map
      MeltRow.percentage).sum = 1 ∧
    (((fig1Melt df y s).filter fun m => m.legend == "Income").map
      MeltRow.percentage).sum = 1 := by
  have hperm : ((fig1Wide df y s).mergeSort stubLe).Perm (fig1Wide df y s) :=
    List.mergeSort_perm _ _
  constructor
  · rw [fig1Melt, List.filter_append,
      filter_map_of_true _ _ _ (fun f => rfl),
      filter_map_of_false _ _ _ (fun f => rfl),
      List.append_nil, List.map_map]
    have h2 : (((fig1Wide df y s).mergeSort stubLe).map
        (MeltRow.percentage ∘ meltTax)).sum =
        ((fig1Wide df y s).map (MeltRow.percentage ∘ meltTax)).sum :=
      (hperm.map _).sum_eq
    rw [h2, fig1Wide, List.map_map]
    have h3 : (MeltRow.percentage ∘ meltTax) ∘ fig1Share (fig1Slice df y s) =
        fun r => r.returns / ((fig1Slice df y s).map Row.returns).sum := rfl
    rw [h3, sum_map_div, div_self hr]
  · rw [fig1Melt, List.filter_append,
      filter_map_of_false _ _ _ (fun f => rfl),
      filter_map_of_true _ _ _ (fun f => rfl),
      List.nil_append, List.map_map]
    have h2 : (((fig1Wide df y s).mergeSort stubLe).map
        (MeltRow.percentage ∘ meltInc)).sum =
        ((fig1Wide df y s).map (MeltRow.percentage ∘ meltInc)).sum :=
      (hperm.map _).sum_eq
    rw [h2, fig1Wide, List.map_map]
    have h3 : (MeltRow.percentage ∘ meltInc) ∘ fig1Share (fig1Slice df y s) =
        fun r => r.inc / ((fig1Slice df y s).map Row.inc).sum := rfl
    rw [h3, sum_map_div, div_self hi]

/-- Bracket A of the section-8 scenario: returns 100, inc 1000. -/
def exRowF1 : Row :=
  { row0 with
    state := "IL", year := 2022, agi_stub := 1, agi_stub_cat := "A",
    returns := 100, inc := 1000 }

/-- Bracket B of the section-8 scenario: returns 10, inc 9000. -/
def exRowF2 : Row :=
  { row0 with
    state := "IL", year := 2022, agi_stub := 2, agi_stub_cat := "B",
    returns := 10, inc := 9000 }

/-- A concrete two-bracket (2022, IL) table, the scenario of specification
section 8. -/
def exDfFig1 : List Row := [exRowF1, exRowF2]

/-- C4 amended witness: on the concrete two-bracket table both share columns
of the Figure-1 output sum to 1. -/
theorem C4_amended_witness :
    (((fig1Melt exDfFig1 2022 "IL").filter fun m => m.legend == "Tax returns").map
      MeltRow.percentage).sum = 1 ∧
    (((fig1Melt exDfFig1 2022 "IL").filter fun m => m.legend == "Income").map
      MeltRow.percentage).sum = 1 :=
  C4_amended exDfFig1 2022 "IL"
    (by norm_num [fig1Slice, exDfFig1, exRowF1, exRowF2, row0])
    (by norm_num [fig1Slice, exDfFig1, exRowF1, exRowF2, row0])

/-- The renamed source columns of app.py lines 253-258, in the melt order of
app.py lines 260-264 (value_vars order). -/
def sourceNames : List String :=
  ["Wages and Salaries", "Interest", "Dividends", "Business", "Capital Gains", "S-Corp"]

/-- The amount column selected by one source name after the rename of app.py
lines 253-258. -/
def sourceAmount (r : Row) : String → ℚ
  | "Wages and Salaries" => r.wages
  | "Interest" => r.interest
  | "Dividends" => r.dividends
  | "Business" => r.business
  | "Capital Gains" => r.capital_gains
  | "S-Corp" => r.s_corp
  | _ => 0

/-- A row of the long-form `source_income` frame after app.py lines 260-274:
melted (bracket, source) pairs with `Amount`, the within-bracket ratio
`Source of Income (%)`, the merged per-source total `Share of Income`, and
the across-bracket ratio `Share of Income (%)`. -/
structure LongRow where
  agi_stub_cat : String
  agi_stub : Int
  inc : ℚ
  source : String
  amount : ℚ
  sourcePct : ℚ
  shareOfSource : ℚ
  sharePct : ℚ
  deriving DecidableEq

/-- The bracket rows feeding Figures 4 and 5 (app.py lines 246-248): one
(2022, IL), aggregate row removed. -/
def fig45Rows (df : List Row) : List Row :=
  ((df.filter fun r => r.year == 2022 && r.state == "IL").filter fun r => r.agi_stub != 0)

/-- The long-form `source_income` frame of app.py lines 260-274: melt over
the six renamed source columns, divide each amount by the bracket `inc`
(line 266), group by source to sum amounts (lines 269-271), merge the
per-source total back (line 273) and divide (line 274). -/
def fig45Table (df : List Row) : List LongRow :=
  sourceNames.flatMap fun src =>
    (fig45Rows df).map fun r =>
      { agi_stub_cat := r.agi_stub_cat, agi_stub := r.agi_stub, inc := r.inc,
        source := src, amount := sourceAmount r src,
        sourcePct := sourceAmount r src / r.inc,
        shareOfSource := ((fig45Rows df).map fun x => sourceAmount x src).sum,
        sharePct := sourceAmount r src / ((fig45Rows df).map fun x => sourceAmount x src).sum }

/-- The chart inputs of Figures 4 and 5 (app.py lines 278-301): line 279
reassigns `source_income` to the rows matching the selected source, the
Figure-4 bar chart (line 280) plots that frame, and the Figure-5 bar chart
(line 301) plots the same variable, still filtered. -/
def fig45ChartInputs (df : List Row) (selected : String) : List LongRow × List LongRow :=
  let source_income := (fig45Table df).filter fun lr => lr.source == selected
  (source_income, source_income)

/-- A one-bracket (2022, IL) table with distinct source amounts. -/
def exRowS : Row :=
  { row0 with
    state := "IL", year := 2022, agi_stub := 1, agi_stub_cat := "A",
    inc := 10, wages := 5, interest := 3, dividends := 1, business := 1 }

/-- A one-row table feeding the Figure 4/5 pipeline. -/
def exDfS : List Row := [exRowS]

/-- C3 counterexample: on a concrete one-bracket table, with `Interest`
selected, the Figure-5 chart input is the filtered one-row frame, not the
unfiltered six-row long-form table, contradicting the claim that Figure 5
plots the unfiltered table. -/
theorem C3_counterexample :
    ((fig45ChartInputs exDfS "Interest").2).length = 1 ∧
    (fig45Table exDfS).length = 6 ∧
    (fig45ChartInputs exDfS "Interest").2 ≠ fig45Table exDfS := by
  refine ⟨?_, ?_, ?_⟩
  · simp [fig45ChartInputs, fig45Table, fig45Rows, sourceNames, sourceAmount,
      exDfS, exRowS, row0, List.filter]
  · simp [fig45Table, fig45Rows, sourceNames, exDfS, exRowS, row0]
  · intro h
    have h1 : ((fig45ChartInputs exDfS "Interest").2).length = (fig45Table exDfS).length := by
      rw [h]
    rw [show ((fig45ChartInputs exDfS "Interest").2).length = 1 by
        simp [fig45ChartInputs, fig45Table, fig45Rows, sourceNames, sourceAmount,
          exDfS, exRowS, row0, List.filter],
      show (fig45Table exDfS).length = 6 by
        simp [fig45Table, fig45Rows, sourceNames, exDfS, exRowS, row0]] at h1
    exact absurd h1 (by norm_num)

/-- C3 amended: the selection parameter filters the long-form table to the
single selected source for the chart inputs of BOTH Figure 4 and Figure 5;
Figure 5 receives the same filtered frame as Figure 4 (the unfiltered table
is not what Figure 5 plots), and every row of either chart input carries the
selected source (app.py lines 278-301). -/
theorem C3_amended (df : List Row) (sel : String) :
    (fig45ChartInputs df sel).1 = ((fig45Table df).filter fun lr => lr.source == sel) ∧
    (fig45ChartInputs df sel).2 = (fig45ChartInputs df sel).1 ∧
    (∀ lr ∈ (fig45ChartInputs df sel).2, lr.source = sel) := by
  refine ⟨rfl, rfl, fun lr hlr => ?_⟩
  simp only [fig45ChartInputs, List.mem_filter] at hlr
  exact beq_iff_eq.mp hlr.2

/-- C3 amended witness: on the concrete one-bracket table the Figure-5
chart input is the same frame as the Figure-4 chart input. -/
theorem C3_amended_witness :
    (fig45ChartInputs exDfS "Interest").2 = (fig45ChartInputs exDfS "Interest").1 :=
  (C3_amended exDfS "Interest").2.1

/-- The Figure-2 base rows of app.py lines 142-145: drop the aggregate row,
keep state IL (all years). -/
def fig2Base (df : List Row) : List Row :=
  (df.filter fun r => r.agi_stub != 0).filter fun r => r.state == "IL"

/-- One group of the per-year groupby-sum of app.py lines 148 and 152. -/
structure YearSum where
  year : Int
  returns : ℚ
  inc : ℚ
  deriving DecidableEq

/-- The groupby(year)[[returns, inc]].sum() of app.py lines 148 and 152: one
output row per distinct year, with the column sums over that year's rows.
The group keys are the distinct years (pandas sorts them; which years occur
is what matters here, order is irrelevant to the claims below). -/
def groupYearSum (rows : List Row) : List YearSum :=
  ((rows.map Row.year).dedup).map fun y =>
    { year := y,
      returns := ((rows.filter fun r => r.year == y).map Row.returns).sum,
      inc := ((rows.filter fun r => r.year == y).map Row.inc).sum }

/-- A row of the merged Figure-2 frame of app.py lines 155-159: per-year
totals, per-year top-bracket sums, and the two share columns. -/
structure Fig2Row where
  year : Int
  returns : ℚ
  inc : ℚ
  returns_10 : ℚ
  inc_10 : ℚ
  taxReturnsShare : ℚ
  incomeShare : ℚ
  deriving DecidableEq

/-- One merged row of app.py lines 155-159: total columns from the per-year
frame `t`, `returns_10` and `inc_10` from the top-bracket frame `m`, and the
two share columns `Tax returns` and `Income`. -/
def fig2Mk (t m : YearSum) : Fig2Row :=
  { year := t.year, returns := t.returns, inc := t.inc,
    returns_10 := m.returns, inc_10 := m.inc,
    taxReturnsShare := m.returns / t.returns,
    incomeShare := m.inc / t.inc }

/-- The Figure-2 frame of app.py lines 148-159: per-year totals inner-merged
on `year` with per-year sums over the `agi_stub == 10` rows (pandas merge
default how=inner), then the share columns of lines 158-159. -/
def fig2Merged (df : List Row) : List Fig2Row :=
  (groupYearSum (fig2Base df)).flatMap fun t =>
    ((groupYearSum ((fig2Base df).filter fun r => r.agi_stub == 10)).filter
      fun m => m.year == t.year).map (fig2Mk t)

/-- A year is among the group keys of `groupYearSum` exactly when some input
row has that year. -/
theorem mem_groupYearSum_iff (rows : List Row) (y : Int) :
    (∃ g ∈ groupYearSum rows, g.year = y) ↔ ∃ r ∈ rows, r.year = y := by
  simp only [groupYearSum, List.mem_map, List.mem_dedup]
  constructor
  · rintro ⟨g, ⟨y', hy', rfl⟩, hgy⟩
    simp only at hgy
    subst hgy
    exact hy'
  · rintro ⟨r, hr, rfl⟩
    exact ⟨_, ⟨r.year, ⟨r, hr, rfl⟩, rfl⟩, rfl⟩

/-- C10 confirmed: a year appears in the Figure-2 output exactly when the
table has an IL top-bracket row (`agi_stub == 10`) for that year; years with
bracket rows but no top-bracket row are dropped by the inner merge rather
than reported with a zero share (app.py lines 148-159). -/
theorem C10_confirmed (df : List Row) (y : Int) :
    (∃ f ∈ fig2Merged df, f.year = y) ↔
      ∃ r ∈ df, r.state = "IL" ∧ r.agi_stub = 10 ∧ r.year = y := by
  constructor
  · rintro ⟨f, hf, rfl⟩
    simp only [fig2Merged, List.mem_flatMap, List.mem_map, List.mem_filter] at hf
    obtain ⟨t, ht, m, ⟨hm, hmy⟩, rfl⟩ := hf
    have hmil : ∃ r ∈ (fig2Base df).filter fun r => r.agi_stub == 10, r.year = m.year :=
      (mem_groupYearSum_iff _ _).mp ⟨m, hm, rfl⟩
    obtain ⟨r, hrmem, hry⟩ := hmil
    simp only [fig2Base, List.mem_filter, bne_iff_ne, ne_eq, beq_iff_eq] at hrmem
    refine ⟨r, hrmem.1.1.1, hrmem.1.2, hrmem.2, ?_⟩
    show r.year = t.year
    rw [hry]
    exact beq_iff_eq.mp hmy
  · rintro ⟨r, hr, hst, hstub, hy⟩
    have hbase : r ∈ fig2Base df := by
      simp only [fig2Base, List.mem_filter, bne_iff_ne, ne_eq, beq_iff_eq]
      exact ⟨⟨hr, by rw [hstub]; norm_num⟩, hst⟩
    obtain ⟨t, ht, hty⟩ := (mem_groupYearSum_iff (fig2Base df) y).mpr ⟨r, hbase, hy⟩
    have hmil : ∃ m ∈ groupYearSum ((fig2Base df).filter fun x => x.agi_stub == 10),
        m.year = y :=
      (mem_groupYearSum_iff _ _).mpr
        ⟨r, List.mem_filter.mpr ⟨hbase, beq_iff_eq.mpr hstub⟩, hy⟩
    obtain ⟨m, hm, hmy⟩ := hmil
    refine ⟨fig2Mk t m, ?_, hty⟩
    simp only [fig2Merged, List.mem_flatMap, List.mem_map, List.mem_filter]
    exact ⟨t, ht, m, ⟨hm, by rw [beq_iff_eq, hmy, hty]⟩, rfl⟩

/-- A CSV cell as pandas sees it before coercion: already numeric, a string
that parses as a number, or a string that does not. -/
inductive Cell where
  | num (v : ℚ)
  | numStr (v : ℚ)
  | strv (s : String)
  deriving DecidableEq

/-- Scalar numeric coercion: numeric stays numeric, a parsable string
becomes its number, a non-parsable string fails. -/
def coerceCell : Cell → Option Cell
  | .num v => some (.num v)
  | .numStr v => some (.num v)
  | .strv _ => none

/-- Coercing a whole column: succeeds with every cell converted only if
every cell is coercible. -/
def coerceColumn : List Cell → Option (List Cell)
  | [] => some []
  | c :: cs =>
    match coerceCell c, coerceColumn cs with
    | some c2, some cs2 => some (c2 :: cs2)
    | _, _ => none

/-- One column under pd.to_numeric with errors-ignore (app.py line 16): if
any cell of the column fails to coerce, the ENTIRE column is returned
unchanged; otherwise the converted column is returned.  The operation never
raises. -/
def to_numeric_ignore (col : List Cell) : List Cell :=
  (coerceColumn col).getD col

/-- The df.apply of app.py line 16: the coercion attempt runs column by
column over the whole frame (modelled as a list of columns). -/
def load_coerce (cols : List (List Cell)) : List (List Cell) :=
  cols.map to_numeric_ignore

/-- A column fails to coerce exactly when it has a non-coercible cell. -/
theorem coerceColumn_eq_none_iff (col : List Cell) :
    coerceColumn col = none ↔ ∃ c ∈ col, coerceCell c = none := by
  induction col with
  | nil => simp [coerceColumn]
  | cons c cs ih =>
    cases h1 : coerceCell c with
    | none => simp [coerceColumn, h1]
    | some c2 =>
      cases h2 : coerceColumn cs with
      | none =>
        simp only [coerceColumn, h1, h2, List.mem_cons]
        constructor
        · intro _
          obtain ⟨d, hd, hdn⟩ := ih.mp h2
          exact ⟨d, Or.inr hd, hdn⟩
        · intro _
          trivial
      | some cs2 =>
        simp only [coerceColumn, h1, h2, List.mem_cons]
        constructor
        · intro h
          exact absurd h (by simp)
        · rintro ⟨d, hd | hd, hdn⟩
          · rw [hd] at hdn
            rw [hdn] at h1
            exact absurd h1 (by simp)
          · exact absurd (ih.mpr ⟨d, hd, hdn⟩) (by simp [h2])

/-- Successful coercion preserves the column length. -/
theorem coerceColumn_length (col col2 : List Cell)
    (h : coerceColumn col = some col2) : col2.length = col.length := by
  induction col generalizing col2 with
  | nil => simp [coerceColumn] at h; simp [← h]
  | cons c cs ih =>
    cases h1 : coerceCell c with
    | none => simp [coerceColumn, h1] at h
    | some c2 =>
      cases h2 : coerceColumn cs with
      | none => simp [coerceColumn, h1, h2] at h
      | some cs2 =>
        simp only [coerceColumn, h1, h2, Option.some_inj] at h
        simp [← h, ih cs2 h2]

/-- C6 counterexample: a column holding the parsable string 1 and the
non-parsable string abc.  The claim predicts row-level best effort (the 1
becomes numeric, the abc stays).  The code applies pd.to_numeric with
errors-ignore per column, so one bad cell leaves the whole column unchanged:
the parsable 1 is NOT converted. -/
theorem C6_counterexample :
    to_numeric_ignore [Cell.numStr 1, Cell.strv "abc"] = [Cell.numStr 1, Cell.strv "abc"] ∧
    to_numeric_ignore [Cell.numStr 1, Cell.strv "abc"] ≠ [Cell.num 1, Cell.strv "abc"] := by
  constructor
  · rfl
  · intro h
    rw [show to_numeric_ignore [Cell.numStr 1, Cell.strv "abc"] =
        [Cell.numStr 1, Cell.strv "abc"] from rfl] at h
    simp at h

/-- C6 amended: the loader coercion is column-level all-or-nothing, not
row-level best effort: a column containing any non-coercible cell is
returned entirely unchanged (its coercible cells included); a column whose
cells all coerce is fully converted; and the operation never fails (the
output column always has the length of the input).  (app.py lines 14-17.) -/
theorem C6_amended (col : List Cell) :
    ((∃ c ∈ col, coerceCell c = none) → to_numeric_ignore col = col) ∧
    ((∀ c ∈ col, (coerceCell c).isSome) →
      ∃ col2, coerceColumn col = some col2 ∧ to_numeric_ignore col = col2) ∧
    (to_numeric_ignore col).length = col.length := by
  refine ⟨fun hbad => ?_, fun hgood => ?_, ?_⟩
  · rw [to_numeric_ignore, (coerceColumn_eq_none_iff col).mpr hbad, Option.getD_none]
  · cases h : coerceColumn col with
    | none =>
      obtain ⟨c, hc, hcn⟩ := (coerceColumn_eq_none_iff col).mp h
      have := hgood c hc
      rw [hcn] at this
      exact absurd this (by simp)
    | some col2 => exact ⟨col2, rfl, by rw [to_numeric_ignore, h, Option.getD_some]⟩
  · cases h : coerceColumn col with
    | none => rw [to_numeric_ignore, h, Option.getD_none]
    | some col2 =>
      rw [to_numeric_ignore, h, Option.getD_some]
      exact coerceColumn_length col col2 h
/-- C6 amended witness: a column with a bad cell comes back unchanged, and
the output column keeps the input length. -/
theorem C6_amended_witness :
    to_numeric_ignore [Cell.num 2, Cell.strv "x"] = [Cell.num 2, Cell.strv "x"] ∧
    (to_numeric_ignore [Cell.numStr 3]).length = 1 :=
  ⟨(C6_amended [Cell.num 2, Cell.strv "x"]).1
      ⟨Cell.strv "x", by simp, rfl⟩,
    (C6_amended [Cell.numStr 3]).2.2⟩

/-- The outcome of the pd.read_csv call of app.py line 14: the file reads as
a table of columns, the file is missing, or the file exists but is
malformed (a parser error). -/
inductive ReadResult where
  | ok (tbl : List (List Cell))
  | fileNotFound
  | malformed
  deriving DecidableEq

/-- What the `load_data` call evaluates to in the caller (app.py lines
11-20): a coerced table, the structured None return after the caught
FileNotFoundError (with the st.error message shown), or an uncaught
exception propagating out of the function. -/
inductive LoadOutcome where
  | table (tbl : List (List Cell))
  | noneReturn
  | exnPropagated
  deriving DecidableEq

/-- The `load_data` body (app.py lines 11-20): read, coerce each column,
return the frame; on FileNotFoundError show a structured error and return
None; any other exception is not caught. -/
def load_data (res : ReadResult) : LoadOutcome :=
  match res with
  | .ok tbl => .table (load_coerce tbl)
  | .fileNotFound => .noneReturn
  | .malformed => .exnPropagated

/-- How far `main` gets (app.py lines 22-27): renders charts from the loaded
table, halts rendering nothing when `load_data` returned None, or crashes on
a propagated exception. -/
inductive MainOutcome where
  | rendered (tbl : List (List Cell))
  | haltedNoCharts
  | crashed
  deriving DecidableEq

/-- The load-and-guard prologue of `main` (app.py lines 24-27): `df =
load_data()`, and `if df is None: return` before any chart is derived. -/
def main_start (res : ReadResult) : MainOutcome :=
  match load_data res with
  | .table t => .rendered t
  | .noneReturn => .haltedNoCharts
  | .exnPropagated => .crashed

/-- C7 confirmed: a missing source file makes `load_data` return the
structured None condition, which is distinct from the propagated-exception
outcome that malformed data produces, and the caller then halts before any
chart derivation, rendering nothing (app.py lines 13-27). -/
theorem C7_confirmed :
    load_data ReadResult.fileNotFound = LoadOutcome.noneReturn ∧
    load_data ReadResult.fileNotFound ≠ LoadOutcome.exnPropagated ∧
    load_data ReadResult.malformed = LoadOutcome.exnPropagated ∧
    load_data ReadResult.fileNotFound ≠ load_data ReadResult.malformed ∧
    main_start ReadResult.fileNotFound = MainOutcome.haltedNoCharts := by
  refine ⟨rfl, ?_, rfl, ?_, rfl⟩ <;> simp [load_data]

/-- The `dfx` frame of app.py lines 47-48: rows for year 2022, state IL. -/
def dfx2022IL (df : List Row) : List Row :=
  (df.filter fun r => r.year == 2022).filter fun r => r.state == "IL"

/-- The pandas Series.unique of app.py line 49: distinct values in first
occurrence order. -/
def uniqueFirst : List ℚ → List ℚ
  | [] => []
  | x :: xs => x :: uniqueFirst (xs.filter fun y => y != x)
  termination_by l => l.length
  decreasing_by
    simp only [List.length_cons]
    exact Nat.lt_succ_of_le (List.length_filter_le _ _)

/-- The `top_01` summary statistic of app.py line 49:
dfx agi_01 unique [0].  Indexing [0] raises IndexError on an empty array,
modelled by head? returning none. -/
def summaryTop01 (df : List Row) : Option ℚ :=
  (uniqueFirst ((dfx2022IL df).map Row.agi_01)).head?

/-- The Figure-6 wages list of app.py lines 323-338: filter `pctile_dist` to
year 2022, then take iloc[0] of four ratio series.  iloc[0] raises
IndexError on an empty frame, modelled by head? returning none. -/
def fig6Wages (df : List Row) : Option (List ℚ) :=
  (((pctile_dist df).filter fun p => p.base.year == 2022).head?).map fun p =>
    [p.bottom_50_sal / p.bottom_50,
      p.base.sum_sal_01 / p.base.sum_agi_01,
      p.base.sum_sal_05 / p.base.sum_agi_05,
      p.base.sum_sal_10 / p.base.sum_agi_10]

/-- A bracket row for a year other than 2022, so every 2022 filter and the
aggregate-row filter match nothing. -/
def exRowY : Row :=
  { row0 with state := "IL", year := 2012, agi_stub := 1 }

/-- A table on which the (2022, IL) filters and the aggregate-row filter
all come back empty. -/
def exDfY : List Row := [exRowY]

/-- C5 counterexample: on a table with no 2022 rows the year filter yields
zero matching rows, and the summary-statistic computation and the Figure-6
computation do not produce an empty output: they index element 0 of an
empty selection, which raises IndexError (modelled as none), so zero
matching rows IS fatal there (app.py lines 47-52 and 335-338). -/
theorem C5_counterexample :
    dfx2022IL exDfY = [] ∧
    summaryTop01 exDfY = none ∧
    fig6Wages exDfY = none := by
  refine ⟨?_, ?_, ?_⟩
  · simp [dfx2022IL, exDfY, exRowY, row0]
  · simp [summaryTop01, dfx2022IL, exDfY, exRowY, row0, uniqueFirst]
  · simp [fig6Wages, pctile_dist, exDfY, exRowY, row0]

/-- C5 amended: a filter yielding zero matching rows gives an empty tidy
output for the reshaping derivations (the Figure-1 melt and the Figure-4/5
long-form table), but it is fatal to the summary statistics and to the
Figure-6 computation, which index the first element of the empty selection
and raise IndexError (none) instead of producing an empty output. -/
theorem C5_amended (df : List Row) :
    (fig1Slice df 2022 "IL" = [] → fig1Melt df 2022 "IL" = []) ∧
    (fig45Rows df = [] → fig45Table df = []) ∧
    (dfx2022IL df = [] → summaryTop01 df = none) ∧
    ((pctile_dist df).filter (fun p => p.base.year == 2022) = [] →
      fig6Wages df = none) := by
  refine ⟨fun h => ?_, fun h => ?_, fun h => ?_, fun h => ?_⟩
  · simp [fig1Melt, fig1Wide, h]
  · simp [fig45Table, sourceNames, h]
  · simp [summaryTop01, h, uniqueFirst]
  · simp [fig6Wages, h]

/-- C5 amended witness: the amended statement evaluated on the empty table,
whose every filter yields zero rows. -/
theorem C5_amended_witness :
    fig1Melt [] 2022 "IL" = [] ∧ summaryTop01 [] = none ∧ fig6Wages [] = none :=
  ⟨(C5_amended []).1 rfl, (C5_amended []).2.2.1 rfl, (C5_amended []).2.2.2 rfl⟩
